import Mathlib

/-!
Verification development for the antfarm workflow-run engine.

The embedding models the run/step/story state machine of
src/installer/run.ts, src/cli/cli.ts and src/installer/run-store.ts.

Modelling conventions:
* SQL rows become Lean structures; the database is a `Db` structure holding
  the three row lists (runs, steps, stories).
* Timestamps are epoch milliseconds as `Int`: the TypeScript code stores ISO
  strings and immediately parses them with parseUtcTimestamp before any
  comparison, so rows here carry the parsed value directly.  A SQL NULL
  timestamp is `Option.none`, and parseUtcTimestamp(null) = 0 is modelled by
  `Option.getD 0`.  Non-positive values stand for absent or unparseable
  timestamps (Date.parse failures behave like non-positive values in every
  comparison the code performs).
* Fresh uuids (crypto.randomUUID) are modelled by caller-supplied ids.
* SQL queries with ORDER BY ... LIMIT 1 become a fold that keeps the row
  with the least key, preferring the earlier row on ties.
-/

namespace Antfarm

inductive RunStatus where
  | running
  | completed
  | failed
  deriving DecidableEq

inductive StepStatus where
  | waiting
  | pending
  | running
  | done
  | failed
  deriving DecidableEq

inductive StoryStatus where
  | pending
  | running
  | done
  | failed
  deriving DecidableEq

inductive StepType where
  | single
  | loop
  deriving DecidableEq

/-- Loop configuration carried by a loop-type step (parsed loop_config JSON).
Only the fields the modelled code reads are kept: verifyEach and verifyStep. -/
structure LoopConfig where
  verifyEach : Bool
  verifyStep : Option String
  deriving DecidableEq

/-- A row of the runs table. -/
structure RunRow where
  id : String
  workflowId : String
  task : String
  status : RunStatus
  context : List (String × String)
  notifyUrl : Option String
  createdAt : Int
  updatedAt : Int
  deriving DecidableEq

/-- A row of the steps table. -/
structure StepRow where
  id : Nat
  runId : String
  stepId : String
  agentId : String
  stepIndex : Nat
  inputTemplate : String
  expects : Option String
  status : StepStatus
  maxRetries : Nat
  type : StepType
  loopConfig : Option LoopConfig
  currentStoryId : Option Nat
  output : Option String
  createdAt : Int
  updatedAt : Int
  deriving DecidableEq

/-- A row of the stories table (fields read by the modelled code). -/
structure StoryRow where
  id : Nat
  runId : String
  storyIndex : Nat
  status : StoryStatus
  updatedAt : Int
  deriving DecidableEq

/-- The persistent store: the three row sets. -/
structure Db where
  runs : List RunRow
  steps : List StepRow
  stories : List StoryRow
  deriving DecidableEq

/-- One fold step of the ORDER BY key ASC LIMIT 1 selection: keep the row
with the least key, preferring the earlier row on ties. -/
def sqlMinStep {α β : Type} [LinearOrder β] (key : α → β) (acc : Option α) (x : α) :
    Option α :=
  match acc with
  | none => some x
  | some b => if key x < key b then some x else some b

/-- SELECT ... ORDER BY key ASC LIMIT 1 over an already filtered row list. -/
def sqlFirstMin {α β : Type} [LinearOrder β] (key : α → β) (l : List α) : Option α :=
  l.foldl (sqlMinStep key) none

/-- parseUtcTimestamp (run.ts lines 11-15 and cli.ts lines 56-60): a null or
empty value parses to 0; otherwise the ISO string parses to epoch ms, which
rows here already carry as Int. -/
def parseUtcMs (v : Option Int) : Int := v.getD 0

/-- Steps belonging to one run (WHERE run_id = ?). -/
def stepsOfRun (steps : List StepRow) (runId : String) : List StepRow :=
  steps.filter (fun s => decide (s.runId = runId))

/-- SELECT MAX(updated_at) FROM steps WHERE run_id = ? (NULL when no rows). -/
def maxStepUpdatedAt (steps : List StepRow) (runId : String) : Option Int :=
  ((stepsOfRun steps runId).map (fun s => s.updatedAt)).max?

/-- SELECT COUNT(*) FROM steps WHERE run_id = ? AND status = q running q.
The cleanup command computes the same number as SUM(CASE WHEN status =
running THEN 1 ELSE 0 END) with NULL coalesced to 0. -/
def runningStepsCount (steps : List StepRow) (runId : String) : Nat :=
  ((stepsOfRun steps runId).filter (fun s => decide (s.status = StepStatus.running))).length

/-- lastActivity of a run: Math.max of the parsed run created_at, run
updated_at and the max step updated_at (run.ts lines 86-90, cli.ts 590-594). -/
def lastActivityMs (db : Db) (r : RunRow) : Int :=
  max (max r.createdAt r.updatedAt) (parseUtcMs (maxStepUpdatedAt db.steps r.id))

/-- The stale test applied to the selected active run at run creation
(run.ts line 91): zero running steps, positive lastActivity, and age
strictly beyond the threshold. -/
def isStaleActiveRun (nowMs thresholdMs : Int) (db : Db) (r : RunRow) : Bool :=
  decide (runningStepsCount db.steps r.id = 0) &&
  decide (0 < lastActivityMs db r) &&
  decide (thresholdMs < nowMs - lastActivityMs db r)

/-- The stale selection applied per running run by cleanup-stale
(cli.ts lines 590-599): runs with non-positive lastActivity are skipped by
the continue guard, the rest are selected when they have zero running steps
and age strictly beyond the threshold. -/
def cleanupSelectsRun (nowMs thresholdMs : Int) (db : Db) (r : RunRow) : Bool :=
  let la := lastActivityMs db r
  if la ≤ 0 then false
  else decide (runningStepsCount db.steps r.id = 0) && decide (thresholdMs < nowMs - la)

/-- UPDATE steps SET status = failed, output = COALESCE(output, reason),
updated_at = ts WHERE run_id = ? AND status IN (waiting, pending, running);
shared by run.ts lines 99-105 and cli.ts lines 633-635. -/
def forceFailSteps (steps : List StepRow) (runId : String) (reason : String) (ts : Int) :
    List StepRow :=
  steps.map fun s =>
    if s.runId = runId ∧
        (s.status = StepStatus.waiting ∨ s.status = StepStatus.pending ∨
         s.status = StepStatus.running) then
      { s with status := StepStatus.failed, output := some (s.output.getD reason), updatedAt := ts }
    else s

/-- The force-fail transaction of the active-run check (run.ts lines 95-110):
the run update has no status guard there. -/
def staleForceFail (db : Db) (runId : String) (reason : String) (ts : Int) : Db :=
  { db with
    runs := db.runs.map (fun r =>
      if r.id = runId then { r with status := RunStatus.failed, updatedAt := ts } else r),
    steps := forceFailSteps db.steps runId reason ts }

/-- The force-fail transaction of cleanup-stale (cli.ts lines 627-642): the
run update additionally requires status = running. -/
def cleanupForceFail (db : Db) (runId : String) (reason : String) (ts : Int) : Db :=
  { db with
    runs := db.runs.map (fun r =>
      if r.id = runId ∧ r.status = RunStatus.running then
        { r with status := RunStatus.failed, updatedAt := ts }
      else r),
    steps := forceFailSteps db.steps runId reason ts }

/-! ### Resume (cli.ts lines 727-831) -/

/-- WHERE id = ? OR id LIKE ?% (run lookup with prefix match; uuids are
lowercase hex, so the ASCII case-insensitivity of SQLite LIKE is not
modelled). -/
def runIdMatches (target : String) (r : RunRow) : Bool :=
  r.id == target || target.data.isPrefixOf r.id.data

/-- SELECT id, workflow_id, status FROM runs WHERE id = ? OR id LIKE ?%
(first row in table order). -/
def findRunForResume (runs : List RunRow) (target : String) : Option RunRow :=
  runs.find? (runIdMatches target)

/-- SELECT ... FROM steps WHERE run_id = ? AND status = failed
ORDER BY step_index ASC LIMIT 1. -/
def firstFailedStep (steps : List StepRow) (runId : String) : Option StepRow :=
  sqlFirstMin (fun s => s.stepIndex)
    (steps.filter (fun s => decide (s.runId = runId ∧ s.status = StepStatus.failed)))

/-- SELECT id FROM stories WHERE run_id = ? AND status = failed
ORDER BY story_index ASC LIMIT 1. -/
def firstFailedStory (stories : List StoryRow) (runId : String) : Option StoryRow :=
  sqlFirstMin (fun st => st.storyIndex)
    (stories.filter (fun st => decide (st.runId = runId ∧ st.status = StoryStatus.failed)))

/-- SELECT id, loop_config FROM steps WHERE run_id = ? AND type = loop AND
status IN (running, failed) LIMIT 1 (first row in table order; steps are
inserted in index order, so table order is index order). -/
def activeLoopStep (steps : List StepRow) (runId : String) : Option StepRow :=
  steps.find? (fun s => decide (s.runId = runId ∧ s.type = StepType.loop ∧
    (s.status = StepStatus.running ∨ s.status = StepStatus.failed)))

/-- UPDATE steps SET ... WHERE id = ?. -/
def updateStepRow (steps : List StepRow) (id : Nat) (f : StepRow → StepRow) : List StepRow :=
  steps.map fun s => if s.id = id then f s else s

/-- UPDATE stories SET ... WHERE id = ?. -/
def updateStoryRow (stories : List StoryRow) (id : Nat) (f : StoryRow → StoryRow) :
    List StoryRow :=
  stories.map fun st => if st.id = id then f st else st

/-- UPDATE runs SET ... WHERE id = ?. -/
def updateRunRow (runs : List RunRow) (id : String) (f : RunRow → RunRow) : List RunRow :=
  runs.map fun r => if r.id = id then f r else r

/-- The condition of cli.ts line 771: the lowest-index failed step is the
paired verify step of the loop step (lc.verifyEach truthy and lc.verifyStep
equal to the failed step step_id). -/
def verifyPairMatches (lc : Option LoopConfig) (failedStepId : String) : Bool :=
  match lc with
  | some c => c.verifyEach && c.verifyStep == some failedStepId
  | none => false

/-- Outcome of the resume command: an error leaves the store exactly as it
was read (the code exits before any UPDATE on every error path). -/
inductive ResumeOutcome where
  | error (db : Db) (msg : String)
  | resumed (db : Db)
  deriving DecidableEq

/-- The plain branch (cli.ts lines 807-815): reset the failed step to
pending clearing its story binding, set the run back to running. -/
def plainResume (db : Db) (run : RunRow) (f : StepRow) (ts : Int) : ResumeOutcome :=
  ResumeOutcome.resumed
    { db with
      steps := updateStepRow db.steps f.id (fun s =>
        { s with status := StepStatus.pending, currentStoryId := none, updatedAt := ts })
      runs := updateRunRow db.runs run.id (fun r =>
        { r with status := RunStatus.running, updatedAt := ts }) }

/-- Resume (cli.ts lines 727-831).  In order: look the run up (prefix
match), require status failed, require a failed step; if the failed step is
a loop step, reset the first failed story of the run to pending; then, when
the first running-or-failed loop step of the run pairs the failed step as
its verifyEach verify step, reset the loop step to pending (clearing its
story binding), the verify step to waiting, every failed story of the run
to pending and the run to running; otherwise reset just the failed step to
pending (clearing its story binding) and the run to running. -/
def resumeRun (db : Db) (target : String) (ts : Int) : ResumeOutcome :=
  match findRunForResume db.runs target with
  | none => ResumeOutcome.error db "Run not found"
  | some run =>
    if run.status ≠ RunStatus.failed then
      ResumeOutcome.error db "Run is not failed. Nothing to resume."
    else
      match firstFailedStep db.steps run.id with
      | none => ResumeOutcome.error db "No failed step found in run."
      | some f =>
        let db1 :=
          if f.type = StepType.loop then
            match firstFailedStory db.stories run.id with
            | some st =>
              { db with stories := updateStoryRow db.stories st.id (fun s =>
                  { s with status := StoryStatus.pending, updatedAt := ts }) }
            | none => db
          else db
        match activeLoopStep db1.steps run.id with
        | some L =>
          if verifyPairMatches L.loopConfig f.stepId then
            ResumeOutcome.resumed
              { runs := updateRunRow db1.runs run.id (fun r =>
                  { r with status := RunStatus.running, updatedAt := ts })
                steps := updateStepRow
                  (updateStepRow db1.steps L.id (fun s =>
                    { s with
                      status := StepStatus.pending
                      currentStoryId := none
                      updatedAt := ts }))
                  f.id (fun s =>
                    { s with
                      status := StepStatus.waiting
                      currentStoryId := none
                      updatedAt := ts })
                stories := db1.stories.map (fun st =>
                  if st.runId = run.id ∧ st.status = StoryStatus.failed then
                    { st with status := StoryStatus.pending, updatedAt := ts }
                  else st) }
          else plainResume db1 run f ts
        | none => plainResume db1 run f ts

/-! ### Run creation (run.ts lines 25-189) -/

/-- One step of an already-parsed workflow specification (the external
WorkflowSpec collaborator), with the fields runWorkflow reads. -/
structure StepSpec where
  id : String
  agent : String
  input : String
  expects : Option String
  maxRetries : Option Nat
  onFailMaxRetries : Option Nat
  type : Option StepType
  loop : Option LoopConfig
  deriving DecidableEq

/-- An already-parsed workflow specification. -/
structure WorkflowSpec where
  id : String
  steps : List StepSpec
  context : List (String × String)
  notifyUrl : Option String
  deriving DecidableEq

/-- The value runWorkflow returns on success
({ id, workflowId, task, status: "running" }). -/
structure RunStartResult where
  id : String
  workflowId : String
  task : String
  status : String
  deriving DecidableEq

/-- SELECT ... FROM runs WHERE workflow_id = ? AND status = running
ORDER BY created_at ASC LIMIT 1 (run.ts lines 37-71; the step_id/agent_id
fields it also selects only feed the diagnostic message). -/
def activeRunQuery (runs : List RunRow) (wfId : String) : Option RunRow :=
  sqlFirstMin (fun r => r.createdAt)
    (runs.filter (fun r => decide (r.workflowId = wfId ∧ r.status = RunStatus.running)))

/-- The synthetic output written to non-terminal steps of a force-failed
stale run (run.ts line 102). -/
def staleReasonText (staleMinutes : Int) : String :=
  "Auto-failed stale run after " ++ toString staleMinutes ++ " minutes without progress"

/-- One inserted step row (run.ts lines 152-161): agent id is
workflowId/agent, index-0 rows start pending and all others waiting,
max retries defaults to on_fail.max_retries and then to 2, type defaults
to single.  Fresh uuids are modelled as idBase + position. -/
def makeStepRow (wf : WorkflowSpec) (runId : String) (now : Int) (idBase i : Nat)
    (st : StepSpec) : StepRow :=
  { id := idBase + i
    runId := runId
    stepId := st.id
    agentId := wf.id ++ "/" ++ st.agent
    stepIndex := i
    inputTemplate := st.input
    expects := st.expects
    status := if i = 0 then StepStatus.pending else StepStatus.waiting
    maxRetries := st.maxRetries.getD (st.onFailMaxRetries.getD 2)
    type := st.type.getD StepType.single
    loopConfig := st.loop
    currentStoryId := none
    output := none
    createdAt := now
    updatedAt := now }

/-- The insertion loop over the workflow steps, carrying the loop index. -/
def buildStepRows (wf : WorkflowSpec) (runId : String) (now : Int) (idBase : Nat) :
    Nat → List StepSpec → List StepRow
  | _, [] => []
  | i, st :: rest => makeStepRow wf runId now idBase i st :: buildStepRows wf runId now idBase (i + 1) rest

/-- The run row the insert transaction writes. -/
def insertedRunRow (wf : WorkflowSpec) (taskTitle : String) (notifyUrl : Option String)
    (runId : String) (now : Int) : RunRow :=
  { id := runId
    workflowId := wf.id
    task := taskTitle
    status := RunStatus.running
    context := ("task", taskTitle) :: wf.context
    notifyUrl := match notifyUrl with
      | some u => some u
      | none => wf.notifyUrl
    createdAt := now
    updatedAt := now }

/-- The insert transaction (run.ts lines 140-167): one run row with status
running and context made of the task plus the workflow context, notify url
from the parameter falling back to the workflow notifications url, plus one
step row per workflow-spec step. -/
def insertRunAndSteps (db : Db) (wf : WorkflowSpec) (taskTitle : String)
    (notifyUrl : Option String) (runId : String) (now : Int) (idBase : Nat) : Db :=
  { db with
    runs := db.runs ++ [insertedRunRow wf taskTitle notifyUrl runId now]
    steps := db.steps ++ buildStepRows wf runId now idBase 0 wf.steps }

/-- Rolling the committed run back to failed when the scheduler cannot be
armed (run.ts lines 169-178). -/
def cronFailStore (db2 : Db) (runId : String) (nowMs : Int) : Db :=
  { db2 with runs := db2.runs.map (fun r =>
      if r.id = runId then { r with status := RunStatus.failed, updatedAt := nowMs } else r) }

/-- runWorkflow (run.ts lines 25-189).  Parameters beyond the TypeScript
signature model the ambient world: nowMs the clock (the code reads
Date.now() and fresh ISO timestamps, all within the same call),
thresholdMs the configured stale threshold, runId the fresh run uuid,
idBase the fresh step uuids, and cronOk whether ensureWorkflowCrons (the
external scheduler) succeeds.  Returns the final store and either the
start result or the thrown error message. -/
def runWorkflow (db : Db) (wf : WorkflowSpec) (taskTitle : String)
    (notifyUrl : Option String) (allowConcurrent : Bool) (nowMs thresholdMs : Int)
    (runId : String) (idBase : Nat) (cronOk : Bool) :
    Db × Except String RunStartResult :=
  let proceed : Db → Db × Except String RunStartResult := fun dbIn =>
    let db2 := insertRunAndSteps dbIn wf taskTitle notifyUrl runId nowMs idBase
    if cronOk then
      (db2, Except.ok { id := runId, workflowId := wf.id, task := taskTitle, status := "running" })
    else
      (cronFailStore db2 runId nowMs,
       Except.error "Cannot start workflow run: cron setup failed.")
  if allowConcurrent then proceed db
  else
    match activeRunQuery db.runs wf.id with
    | none => proceed db
    | some a =>
      if isStaleActiveRun nowMs thresholdMs db a then
        proceed (staleForceFail db a.id
          (staleReasonText (Int.fdiv (nowMs - lastActivityMs db a) 60000)) nowMs)
      else
        (db, Except.error ("Workflow \"" ++ wf.id ++ "\" already has an active run (" ++
          (a.id.take 8) ++ "). Wait for completion or use --allow-concurrent to queue another run."))

/-! ### Concrete example states used by witnesses and counterexamples -/

/-- A running run with valid (positive) parsed timestamps. -/
def wRun1 : RunRow :=
  { id := "R", workflowId := "wf", task := "t", status := RunStatus.running,
    context := [], notifyUrl := none, createdAt := 1, updatedAt := 1 }

/-- A running run all of whose timestamps fail to parse (modelled as 0). -/
def wRunZero : RunRow :=
  { id := "R0", workflowId := "wf", task := "t", status := RunStatus.running,
    context := [], notifyUrl := none, createdAt := 0, updatedAt := 0 }

def wStepPending : StepRow :=
  { id := 1, runId := "R", stepId := "s0", agentId := "wf/a", stepIndex := 0,
    inputTemplate := "", expects := none, status := StepStatus.pending, maxRetries := 2,
    type := StepType.single, loopConfig := none, currentStoryId := none, output := none,
    createdAt := 1, updatedAt := 1 }

def wStepDone : StepRow :=
  { id := 2, runId := "R", stepId := "s1", agentId := "wf/b", stepIndex := 1,
    inputTemplate := "", expects := none, status := StepStatus.done, maxRetries := 2,
    type := StepType.single, loopConfig := none, currentStoryId := none,
    output := some "out", createdAt := 1, updatedAt := 1 }

def wdbC1 : Db := { runs := [wRun1], steps := [], stories := [] }

def wdbC9 : Db := { runs := [wRunZero], steps := [], stories := [] }

def wdbFF : Db := { runs := [wRun1], steps := [wStepPending, wStepDone], stories := [] }

def wdbEmpty : Db := { runs := [], steps := [], stories := [] }

/-- A failed run whose lowest-index failed step is a plain single step,
while the run also has a (failed) loop step and a failed story. -/
def cRunC3 : RunRow :=
  { id := "RC3", workflowId := "wf", task := "t", status := RunStatus.failed,
    context := [], notifyUrl := none, createdAt := 1, updatedAt := 1 }

def cStepSingleFailed : StepRow :=
  { id := 10, runId := "RC3", stepId := "dev", agentId := "wf/dev", stepIndex := 0,
    inputTemplate := "", expects := none, status := StepStatus.failed, maxRetries := 2,
    type := StepType.single, loopConfig := none, currentStoryId := none,
    output := some "err", createdAt := 1, updatedAt := 1 }

def cStepLoopFailed : StepRow :=
  { id := 11, runId := "RC3", stepId := "looper", agentId := "wf/loop", stepIndex := 1,
    inputTemplate := "", expects := none, status := StepStatus.failed, maxRetries := 2,
    type := StepType.loop, loopConfig := none, currentStoryId := none, output := none,
    createdAt := 1, updatedAt := 1 }

def cStoryFailed : StoryRow :=
  { id := 20, runId := "RC3", storyIndex := 0, status := StoryStatus.failed, updatedAt := 1 }

def cdbC3 : Db :=
  { runs := [cRunC3], steps := [cStepSingleFailed, cStepLoopFailed], stories := [cStoryFailed] }

/-- State of cdbC3 after resume: the single failed step is reset and the run
set back to running, but the failed story is left failed. -/
def cdbC3After : Db :=
  { runs := [{ cRunC3 with status := RunStatus.running, updatedAt := 7 }]
    steps := [{ cStepSingleFailed with
                status := StepStatus.pending
                currentStoryId := none
                updatedAt := 7 },
              cStepLoopFailed]
    stories := [cStoryFailed] }

/-- A failed run stopped at the paired verify step of a verifyEach loop. -/
def cRunC4 : RunRow :=
  { id := "RC4", workflowId := "wf", task := "t", status := RunStatus.failed,
    context := [], notifyUrl := none, createdAt := 1, updatedAt := 1 }

def cLoopCfgC4 : LoopConfig := { verifyEach := true, verifyStep := some "verify" }

def cStepLoopC4 : StepRow :=
  { id := 30, runId := "RC4", stepId := "dev", agentId := "wf/dev", stepIndex := 0,
    inputTemplate := "", expects := none, status := StepStatus.running, maxRetries := 2,
    type := StepType.loop, loopConfig := some cLoopCfgC4, currentStoryId := some 40,
    output := none, createdAt := 1, updatedAt := 1 }

def cStepVerifyC4 : StepRow :=
  { id := 31, runId := "RC4", stepId := "verify", agentId := "wf/verify", stepIndex := 1,
    inputTemplate := "", expects := none, status := StepStatus.failed, maxRetries := 2,
    type := StepType.single, loopConfig := none, currentStoryId := some 40,
    output := some "verdict", createdAt := 1, updatedAt := 1 }

def cStoryC4 : StoryRow :=
  { id := 40, runId := "RC4", storyIndex := 0, status := StoryStatus.failed, updatedAt := 1 }

def cdbC4 : Db :=
  { runs := [cRunC4], steps := [cStepLoopC4, cStepVerifyC4], stories := [cStoryC4] }

/-- A one-step workflow specification used by witnesses. -/
def wStepSpec : StepSpec :=
  { id := "s0", agent := "a", input := "in", expects := none, maxRetries := none,
    onFailMaxRetries := none, type := none, loop := none }

/-- A two-step workflow specification used by witnesses. -/
def wStepSpecB : StepSpec :=
  { id := "s1", agent := "b", input := "in2", expects := none, maxRetries := some 1,
    onFailMaxRetries := none, type := none, loop := none }

def wfC6 : WorkflowSpec :=
  { id := "wf", steps := [wStepSpec, wStepSpecB], context := [], notifyUrl := none }

/-! ### Theorems -/

theorem createdAt_le_lastActivity (db : Db) (r : RunRow) :
    r.createdAt ≤ lastActivityMs db r :=
  le_max_of_le_left (le_max_left _ _)

theorem parse_maxStepUpdatedAt_nonpos (steps : List StepRow) (runId : String)
    (hs : ∀ s ∈ stepsOfRun steps runId, s.updatedAt ≤ 0) :
    parseUtcMs (maxStepUpdatedAt steps runId) ≤ 0 := by
  unfold parseUtcMs maxStepUpdatedAt
  cases h : ((stepsOfRun steps runId).map (fun s => s.updatedAt)).max? with
  | none => simp
  | some m =>
    have hm := List.max?_mem max_choice h
    simp only [List.mem_map] at hm
    obtain ⟨s, hsmem, rfl⟩ := hm
    simpa using hs s hsmem

/-- C1: for every run in status running with a genuinely parsed (positive)
creation timestamp — which holds for every run this program writes, since
run rows are inserted with a fresh ISO timestamp — both the active-run
check at run creation and the cleanup-stale selection classify the run as
stale exactly when it has zero running steps and now minus lastActivity
strictly exceeds the threshold; a run whose lastActivity is exactly at
now minus threshold is not stale, and one whose lastActivity is one
millisecond older than that, with zero running steps, is stale. -/
theorem stale_check_boundary_characterization (db : Db) (r : RunRow) (nowMs thresholdMs : Int)
    (hrun : r.status = RunStatus.running) (hpos : 0 < r.createdAt) :
    (isStaleActiveRun nowMs thresholdMs db r = true ↔
      (runningStepsCount db.steps r.id = 0 ∧ thresholdMs < nowMs - lastActivityMs db r)) ∧
    cleanupSelectsRun nowMs thresholdMs db r = isStaleActiveRun nowMs thresholdMs db r ∧
    (lastActivityMs db r = nowMs - thresholdMs →
      isStaleActiveRun nowMs thresholdMs db r = false) ∧
    (lastActivityMs db r = nowMs - thresholdMs - 1 → runningStepsCount db.steps r.id = 0 →
      isStaleActiveRun nowMs thresholdMs db r = true) := by
  have hla : 0 < lastActivityMs db r :=
    lt_of_lt_of_le hpos (createdAt_le_lastActivity db r)
  refine ⟨?_, ?_, ?_, ?_⟩
  · simp [isStaleActiveRun, hla]
  · simp only [cleanupSelectsRun, isStaleActiveRun]
    rw [if_neg (not_le.mpr hla)]
    simp [hla]
  · intro h
    simp only [isStaleActiveRun, h]
    have : ¬ (thresholdMs < nowMs - (nowMs - thresholdMs)) := by omega
    simp [this]
  · intro h1 h2
    simp only [isStaleActiveRun, h1, h2]
    have h3 : (0 : Int) < nowMs - thresholdMs - 1 := by omega
    have h4 : thresholdMs < nowMs - (nowMs - thresholdMs - 1) := by omega
    simp [h3, h4]

theorem stale_check_boundary_characterization_witness :
    isStaleActiveRun 10 8 wdbC1 wRun1 = true := by
  have h := stale_check_boundary_characterization wdbC1 wRun1 10 8 rfl (by decide)
  exact h.2.2.2 (by decide) (by decide)

/-- C9: a running run none of whose timestamps parses to a positive epoch
time (so lastActivity is not greater than zero) is never classified stale
by the active-run check, and is never selected for force-failing by
cleanup-stale, no matter how much time has elapsed. -/
theorem unparseable_timestamps_never_stale (db : Db) (r : RunRow) (nowMs thresholdMs : Int)
    (hrun : r.status = RunStatus.running)
    (hc : r.createdAt ≤ 0) (hu : r.updatedAt ≤ 0)
    (hs : ∀ s ∈ stepsOfRun db.steps r.id, s.updatedAt ≤ 0) :
    isStaleActiveRun nowMs thresholdMs db r = false ∧
    cleanupSelectsRun nowMs thresholdMs db r = false := by
  have hla : lastActivityMs db r ≤ 0 :=
    max_le (max_le hc hu) (parse_maxStepUpdatedAt_nonpos db.steps r.id hs)
  constructor
  · simp [isStaleActiveRun, not_lt.mpr hla]
  · simp only [cleanupSelectsRun]
    rw [if_pos hla]

theorem unparseable_timestamps_never_stale_witness :
    isStaleActiveRun 1000000000 1 wdbC9 wRunZero = false ∧
    cleanupSelectsRun 1000000000 1 wdbC9 wRunZero = false := by
  exact unparseable_timestamps_never_stale wdbC9 wRunZero 1000000000 1 rfl (by decide)
    (by decide) (by intro s hs; simp [stepsOfRun, wdbC9] at hs)

/-- C2: force-failing a stale running run (in both the run-creation check
and the cleanup-stale command, each a single transaction) sets the run to
failed, sets every step of the run in status waiting, pending or running to
failed writing the synthetic explanatory output only when no output was
present, leaves steps already done or failed untouched, never overwrites an
existing step output, and touches no story and no other run. -/
theorem stale_force_fail_effects (db : Db) (runId reason : String) (ts : Int) :
    (staleForceFail db runId reason ts).steps = (cleanupForceFail db runId reason ts).steps ∧
    (staleForceFail db runId reason ts).stories = db.stories ∧
    (cleanupForceFail db runId reason ts).stories = db.stories ∧
    (staleForceFail db runId reason ts).runs.length = db.runs.length ∧
    (cleanupForceFail db runId reason ts).runs.length = db.runs.length ∧
    (staleForceFail db runId reason ts).steps.length = db.steps.length ∧
    (∀ i (h : i < db.runs.length) (h2 : i < (cleanupForceFail db runId reason ts).runs.length)
        (h3 : i < (staleForceFail db runId reason ts).runs.length),
      ((db.runs.get ⟨i, h⟩).id = runId → (db.runs.get ⟨i, h⟩).status = RunStatus.running →
        (cleanupForceFail db runId reason ts).runs.get ⟨i, h2⟩ =
          { db.runs.get ⟨i, h⟩ with status := RunStatus.failed, updatedAt := ts } ∧
        (staleForceFail db runId reason ts).runs.get ⟨i, h3⟩ =
          { db.runs.get ⟨i, h⟩ with status := RunStatus.failed, updatedAt := ts }) ∧
      ((db.runs.get ⟨i, h⟩).id ≠ runId →
        (cleanupForceFail db runId reason ts).runs.get ⟨i, h2⟩ = db.runs.get ⟨i, h⟩ ∧
        (staleForceFail db runId reason ts).runs.get ⟨i, h3⟩ = db.runs.get ⟨i, h⟩)) ∧
    (∀ i (h : i < db.steps.length) (h2 : i < (staleForceFail db runId reason ts).steps.length),
      ((db.steps.get ⟨i, h⟩).runId = runId →
        ((db.steps.get ⟨i, h⟩).status = StepStatus.waiting ∨
         (db.steps.get ⟨i, h⟩).status = StepStatus.pending ∨
         (db.steps.get ⟨i, h⟩).status = StepStatus.running) →
        (staleForceFail db runId reason ts).steps.get ⟨i, h2⟩ =
          { db.steps.get ⟨i, h⟩ with
            status := StepStatus.failed
            output := some ((db.steps.get ⟨i, h⟩).output.getD reason)
            updatedAt := ts }) ∧
      (((db.steps.get ⟨i, h⟩).status = StepStatus.done ∨
        (db.steps.get ⟨i, h⟩).status = StepStatus.failed) →
        (staleForceFail db runId reason ts).steps.get ⟨i, h2⟩ = db.steps.get ⟨i, h⟩) ∧
      ((db.steps.get ⟨i, h⟩).runId ≠ runId →
        (staleForceFail db runId reason ts).steps.get ⟨i, h2⟩ = db.steps.get ⟨i, h⟩) ∧
      (∀ o, (db.steps.get ⟨i, h⟩).output = some o →
        ((staleForceFail db runId reason ts).steps.get ⟨i, h2⟩).output = some o)) := by
  refine ⟨rfl, rfl, rfl, by simp [staleForceFail], by simp [cleanupForceFail],
    by simp [staleForceFail, forceFailSteps], ?_, ?_⟩
  · intro i h h2 h3
    constructor
    · intro hid hst
      simp only [List.get_eq_getElem] at hid hst
      constructor
      · simp only [cleanupForceFail, List.get_eq_getElem, List.getElem_map]
        rw [if_pos ⟨hid, hst⟩]
      · simp only [staleForceFail, List.get_eq_getElem, List.getElem_map]
        rw [if_pos hid]
    · intro hid
      simp only [List.get_eq_getElem] at hid
      constructor
      · simp only [cleanupForceFail, List.get_eq_getElem, List.getElem_map]
        rw [if_neg (fun hc => hid hc.1)]
      · simp only [staleForceFail, List.get_eq_getElem, List.getElem_map]
        rw [if_neg hid]
  · intro i h h2
    refine ⟨?_, ?_, ?_, ?_⟩
    · intro hid hst
      simp only [List.get_eq_getElem] at hid hst
      simp only [staleForceFail, forceFailSteps, List.get_eq_getElem, List.getElem_map]
      rw [if_pos ⟨hid, hst⟩]
    · intro hst
      simp only [List.get_eq_getElem] at hst
      simp only [staleForceFail, forceFailSteps, List.get_eq_getElem, List.getElem_map]
      rw [if_neg]
      rintro ⟨-, h4⟩
      rcases hst with h5 | h5 <;> rw [h5] at h4 <;> rcases h4 with h6 | h6 | h6 <;> cases h6
    · intro hid
      simp only [List.get_eq_getElem] at hid
      simp only [staleForceFail, forceFailSteps, List.get_eq_getElem, List.getElem_map]
      rw [if_neg (fun hc => hid hc.1)]
    · intro o ho
      simp only [staleForceFail, forceFailSteps, List.get_eq_getElem, List.getElem_map]
      by_cases hc : (db.steps.get ⟨i, h⟩).runId = runId ∧
          ((db.steps.get ⟨i, h⟩).status = StepStatus.waiting ∨
           (db.steps.get ⟨i, h⟩).status = StepStatus.pending ∨
           (db.steps.get ⟨i, h⟩).status = StepStatus.running)
      · simp only [List.get_eq_getElem] at hc ho
        rw [if_pos hc]
        simp [ho]
      · simp only [List.get_eq_getElem] at hc ho
        rw [if_neg hc]
        exact ho

theorem stale_force_fail_effects_witness :
    (cleanupForceFail wdbFF "R" "boom" 5).runs.get ⟨0, by decide⟩ =
      { wRun1 with status := RunStatus.failed, updatedAt := 5 } ∧
    (staleForceFail wdbFF "R" "boom" 5).steps.get ⟨0, by decide⟩ =
      { wStepPending with status := StepStatus.failed, output := some "boom", updatedAt := 5 } ∧
    (staleForceFail wdbFF "R" "boom" 5).steps.get ⟨1, by decide⟩ = wStepDone ∧
    ((staleForceFail wdbFF "R" "boom" 5).steps.get ⟨1, by decide⟩).output = some "out" := by
  have h := stale_force_fail_effects wdbFF "R" "boom" 5
  refine ⟨((h.2.2.2.2.2.2.1 0 (by decide) (by decide) (by decide)).1 rfl rfl).1, ?_, ?_, ?_⟩
  · exact (h.2.2.2.2.2.2.2 0 (by decide) (by decide)).1 rfl (by right; left; rfl)
  · exact (h.2.2.2.2.2.2.2 1 (by decide) (by decide)).2.1 (by left; rfl)
  · exact (h.2.2.2.2.2.2.2 1 (by decide) (by decide)).2.2.2 "out" rfl

theorem foldl_sqlMinStep_mem {α β : Type} [LinearOrder β] (key : α → β) :
    ∀ (l : List α) (acc : Option α) (a : α),
      l.foldl (sqlMinStep key) acc = some a → acc = some a ∨ a ∈ l := by
  intro l
  induction l with
  | nil => exact fun acc a h => Or.inl h
  | cons x xs ih =>
    intro acc a h
    rw [List.foldl_cons] at h
    rcases ih (sqlMinStep key acc x) a h with h2 | h2
    · cases acc with
      | none =>
        simp only [sqlMinStep, Option.some.injEq] at h2
        exact Or.inr (h2 ▸ List.mem_cons_self x xs)
      | some b =>
        by_cases hk : key x < key b
        · simp only [sqlMinStep, hk, if_true] at h2
          simp only [Option.some.injEq] at h2
          exact Or.inr (h2 ▸ List.mem_cons_self x xs)
        · simp only [sqlMinStep, hk, if_false] at h2
          exact Or.inl h2
    · exact Or.inr (List.mem_cons_of_mem _ h2)

theorem sqlFirstMin_mem {α β : Type} [LinearOrder β] (key : α → β) {l : List α} {a : α}
    (h : sqlFirstMin key l = some a) : a ∈ l := by
  rcases foldl_sqlMinStep_mem key l none a h with h2 | h2
  · exact absurd h2 (by simp)
  · exact h2

/-- Rows selected by firstFailedStory satisfy the WHERE clause and come
from the stories table. -/
theorem firstFailedStory_sound {stories : List StoryRow} {runId : String} {st : StoryRow}
    (h : firstFailedStory stories runId = some st) :
    st ∈ stories ∧ st.runId = runId ∧ st.status = StoryStatus.failed := by
  unfold firstFailedStory at h
  have hm := sqlFirstMin_mem _ h
  rw [List.mem_filter] at hm
  obtain ⟨hmem, hp⟩ := hm
  rw [decide_eq_true_iff] at hp
  exact ⟨hmem, hp.1, hp.2⟩

/-- What the plain resume branch does to the store. -/
theorem plainResume_spec (db : Db) (run : RunRow) (f : StepRow) (ts : Int) :
    ∃ db2, plainResume db run f ts = ResumeOutcome.resumed db2 ∧
      db2.stories = db.stories ∧
      db2.steps.length = db.steps.length ∧
      db2.runs.length = db.runs.length ∧
      (∀ i (h : i < db.steps.length) (h2 : i < db2.steps.length),
        ((db.steps.get ⟨i, h⟩).id = f.id →
          db2.steps.get ⟨i, h2⟩ =
            { db.steps.get ⟨i, h⟩ with
              status := StepStatus.pending
              currentStoryId := none
              updatedAt := ts }) ∧
        ((db.steps.get ⟨i, h⟩).id ≠ f.id → db2.steps.get ⟨i, h2⟩ = db.steps.get ⟨i, h⟩)) ∧
      (∀ i (h : i < db.runs.length) (h2 : i < db2.runs.length),
        ((db.runs.get ⟨i, h⟩).id = run.id →
          db2.runs.get ⟨i, h2⟩ =
            { db.runs.get ⟨i, h⟩ with status := RunStatus.running, updatedAt := ts }) ∧
        ((db.runs.get ⟨i, h⟩).id ≠ run.id → db2.runs.get ⟨i, h2⟩ = db.runs.get ⟨i, h⟩)) := by
  refine ⟨_, rfl, rfl, by simp [updateStepRow], by simp [updateRunRow], ?_, ?_⟩
  · intro i h h2
    constructor
    · intro hid
      simp only [List.get_eq_getElem] at hid ⊢
      simp only [updateStepRow, List.getElem_map]
      rw [if_pos hid]
    · intro hid
      simp only [List.get_eq_getElem] at hid ⊢
      simp only [updateStepRow, List.getElem_map]
      rw [if_neg hid]
  · intro i h h2
    constructor
    · intro hid
      simp only [List.get_eq_getElem] at hid ⊢
      simp only [updateRunRow, List.getElem_map]
      rw [if_pos hid]
    · intro hid
      simp only [List.get_eq_getElem] at hid ⊢
      simp only [updateRunRow, List.getElem_map]
      rw [if_neg hid]

/-- C5: resume requires the target run to exist and to be exactly failed
with at least one failed step; invoked on a missing run, on a run in
another status, or on a failed run with no failed step, it reports an
error and returns the store exactly as it was read, mutating no run, step
or story. -/
theorem resume_requires_failed_run (db : Db) (target : String) (ts : Int)
    (h : findRunForResume db.runs target = none ∨
      (∃ run, findRunForResume db.runs target = some run ∧ run.status ≠ RunStatus.failed) ∨
      (∃ run, findRunForResume db.runs target = some run ∧ run.status = RunStatus.failed ∧
        firstFailedStep db.steps run.id = none)) :
    ∃ msg, resumeRun db target ts = ResumeOutcome.error db msg := by
  rcases h with h1 | ⟨run, hf, hs⟩ | ⟨run, hf, hs, hn⟩
  · exact ⟨"Run not found", by simp [resumeRun, h1]⟩
  · exact ⟨"Run is not failed. Nothing to resume.", by simp [resumeRun, hf, hs]⟩
  · refine ⟨"No failed step found in run.", ?_⟩
    simp [resumeRun, hf, hs, hn]

theorem resume_requires_failed_run_witness :
    ∃ msg, resumeRun wdbEmpty "x" 0 = ResumeOutcome.error wdbEmpty msg :=
  resume_requires_failed_run wdbEmpty "x" 0 (Or.inl rfl)

/-- C3 counterexample: in cdbC3 the failed run stops at a plain single
step; the run also has a loop step and a failed story, and the verify
pairing does not match, so the claim demands that the failed story be
reset to pending — but resume leaves it failed, because the code resets a
story only when the lowest-index failed step is itself a loop step. -/
theorem resume_story_reset_counterexample :
    resumeRun cdbC3 "RC3" 7 = ResumeOutcome.resumed cdbC3After ∧
    firstFailedStep cdbC3.steps "RC3" = some cStepSingleFailed ∧
    cStepSingleFailed.type = StepType.single ∧
    cStepLoopFailed.type = StepType.loop ∧
    activeLoopStep cdbC3.steps "RC3" = some cStepLoopFailed ∧
    verifyPairMatches cStepLoopFailed.loopConfig cStepSingleFailed.stepId = false ∧
    cdbC3After.stories = [cStoryFailed] ∧
    cStoryFailed.status = StoryStatus.failed := by
  refine ⟨by decide, by decide, rfl, rfl, by decide, rfl, rfl, rfl⟩

/-- C3 (amended): for every failed run whose lowest-index failed step F is
not the verify pairing of the selected loop step, resume sets F to pending
clearing its current-story binding, sets the run to running, and leaves
every other step row and every other run row unchanged; additionally, the
lowest-index failed story of the run is reset to pending exactly when F is
itself a loop-type step (stories are untouched when F is not a loop step,
or when the run has no failed story). -/
theorem resume_plain_restores_failed_step (db : Db) (target : String) (ts : Int)
    (run : RunRow) (f : StepRow)
    (hfind : findRunForResume db.runs target = some run)
    (hstatus : run.status = RunStatus.failed)
    (hfail : firstFailedStep db.steps run.id = some f)
    (hnopair : ∀ L, activeLoopStep db.steps run.id = some L →
      verifyPairMatches L.loopConfig f.stepId = false) :
    ∃ db2, resumeRun db target ts = ResumeOutcome.resumed db2 ∧
      db2.steps.length = db.steps.length ∧
      db2.runs.length = db.runs.length ∧
      (∀ i (h : i < db.steps.length) (h2 : i < db2.steps.length),
        ((db.steps.get ⟨i, h⟩).id = f.id →
          db2.steps.get ⟨i, h2⟩ =
            { db.steps.get ⟨i, h⟩ with
              status := StepStatus.pending
              currentStoryId := none
              updatedAt := ts }) ∧
        ((db.steps.get ⟨i, h⟩).id ≠ f.id → db2.steps.get ⟨i, h2⟩ = db.steps.get ⟨i, h⟩)) ∧
      (∀ i (h : i < db.runs.length) (h2 : i < db2.runs.length),
        ((db.runs.get ⟨i, h⟩).id = run.id →
          db2.runs.get ⟨i, h2⟩ =
            { db.runs.get ⟨i, h⟩ with status := RunStatus.running, updatedAt := ts }) ∧
        ((db.runs.get ⟨i, h⟩).id ≠ run.id → db2.runs.get ⟨i, h2⟩ = db.runs.get ⟨i, h⟩)) ∧
      (f.type ≠ StepType.loop → db2.stories = db.stories) ∧
      (f.type = StepType.loop → firstFailedStory db.stories run.id = none →
        db2.stories = db.stories) ∧
      (f.type = StepType.loop → ∀ st0, firstFailedStory db.stories run.id = some st0 →
        db2.stories = updateStoryRow db.stories st0.id (fun s =>
          { s with status := StoryStatus.pending, updatedAt := ts }) ∧
        { st0 with status := StoryStatus.pending, updatedAt := ts } ∈ db2.stories) := by
  by_cases hft : f.type = StepType.loop
  · cases hst : firstFailedStory db.stories run.id with
    | none =>
      have hres : resumeRun db target ts = plainResume db run f ts := by
        simp only [resumeRun, hfind, hstatus, ne_eq, not_true_eq_false, if_false, hfail,
          hft, if_true, hst]
        cases hLq : activeLoopStep db.steps run.id with
        | none => rfl
        | some L => simp [hnopair L hLq]
      obtain ⟨db2, hpr, hstories, hslen, hrlen, hsteps, hruns⟩ := plainResume_spec db run f ts
      refine ⟨db2, hres.trans hpr, hslen, hrlen, hsteps, hruns, fun _ => hstories,
        fun _ _ => hstories, fun _ st0 hst0 => ?_⟩
      cases hst0
    | some st0q =>
      obtain ⟨db2, hpr, hstories, hslen, hrlen, hsteps, hruns⟩ :=
        plainResume_spec
          { db with stories := updateStoryRow db.stories st0q.id (fun s =>
              { s with status := StoryStatus.pending, updatedAt := ts }) } run f ts
      have hres : resumeRun db target ts =
          plainResume
            { db with stories := updateStoryRow db.stories st0q.id (fun s =>
                { s with status := StoryStatus.pending, updatedAt := ts }) } run f ts := by
        simp only [resumeRun, hfind, hstatus, ne_eq, not_true_eq_false, if_false, hfail,
          hft, if_true, hst]
        cases hLq : activeLoopStep db.steps run.id with
        | none => rfl
        | some L => simp [hnopair L hLq]
      refine ⟨db2, hres.trans hpr, hslen, hrlen, hsteps, hruns,
        fun hcon => absurd hft hcon, fun _ hcon => ?_, fun _ st0 hst0 => ?_⟩
      · cases hcon
      · obtain rfl := Option.some.inj hst0
        constructor
        · exact hstories
        · rw [hstories]
          show { st0q with status := StoryStatus.pending, updatedAt := ts } ∈
            updateStoryRow db.stories st0q.id (fun s =>
              { s with status := StoryStatus.pending, updatedAt := ts })
          have hmem := (firstFailedStory_sound hst).1
          simp only [updateStoryRow]
          refine List.mem_map.mpr ⟨st0q, hmem, ?_⟩
          simp
  · have hres : resumeRun db target ts = plainResume db run f ts := by
      simp only [resumeRun, hfind, hstatus, ne_eq, not_true_eq_false, if_false, hfail,
        hft, if_false]
      cases hLq : activeLoopStep db.steps run.id with
      | none => rfl
      | some L => simp [hnopair L hLq]
    obtain ⟨db2, hpr, hstories, hslen, hrlen, hsteps, hruns⟩ := plainResume_spec db run f ts
    refine ⟨db2, hres.trans hpr, hslen, hrlen, hsteps, hruns, fun _ => hstories,
      fun hcon _ => absurd hcon hft, fun hcon _ _ => absurd hcon hft⟩

theorem resume_plain_restores_failed_step_witness :
    ∃ db2, resumeRun cdbC3 "RC3" 7 = ResumeOutcome.resumed db2 ∧
      db2.steps.length = cdbC3.steps.length := by
  obtain ⟨db2, h1, h2, -⟩ :=
    resume_plain_restores_failed_step cdbC3 "RC3" 7 cRunC3 cStepSingleFailed
      (by decide) rfl (by decide)
      (by
        intro L hL
        have h0 : activeLoopStep cdbC3.steps cRunC3.id = some cStepLoopFailed := by decide
        rw [h0] at hL
        obtain rfl := Option.some.inj hL
        decide)
  exact ⟨db2, h1, h2⟩

/-- C4: for every failed run whose lowest-index failed step f is the
paired verify step of the selected loop step L (loop config with
verifyEach set and verifyStep equal to the step id of f; verify and loop
are distinct rows), resume sets the loop step to pending clearing its
current-story binding, sets the verify step to waiting (story binding also
cleared), resets every failed story of the run to pending, sets the run
back to running, and leaves every other step row and run row unchanged. -/
theorem resume_verify_pair_reset (db : Db) (target : String) (ts : Int)
    (run : RunRow) (f L : StepRow) (lc : LoopConfig)
    (hfind : findRunForResume db.runs target = some run)
    (hstatus : run.status = RunStatus.failed)
    (hfail : firstFailedStep db.steps run.id = some f)
    (hL : activeLoopStep db.steps run.id = some L)
    (hcfg : L.loopConfig = some lc)
    (hve : lc.verifyEach = true)
    (hvs : lc.verifyStep = some f.stepId)
    (hne : L.id ≠ f.id) :
    ∃ db2, resumeRun db target ts = ResumeOutcome.resumed db2 ∧
      db2.steps.length = db.steps.length ∧
      db2.runs.length = db.runs.length ∧
      db2.stories.length = db.stories.length ∧
      (∀ i (h : i < db.steps.length) (h2 : i < db2.steps.length),
        ((db.steps.get ⟨i, h⟩).id = L.id →
          db2.steps.get ⟨i, h2⟩ =
            { db.steps.get ⟨i, h⟩ with
              status := StepStatus.pending
              currentStoryId := none
              updatedAt := ts }) ∧
        ((db.steps.get ⟨i, h⟩).id = f.id →
          db2.steps.get ⟨i, h2⟩ =
            { db.steps.get ⟨i, h⟩ with
              status := StepStatus.waiting
              currentStoryId := none
              updatedAt := ts }) ∧
        ((db.steps.get ⟨i, h⟩).id ≠ L.id → (db.steps.get ⟨i, h⟩).id ≠ f.id →
          db2.steps.get ⟨i, h2⟩ = db.steps.get ⟨i, h⟩)) ∧
      (∀ i (h : i < db.runs.length) (h2 : i < db2.runs.length),
        ((db.runs.get ⟨i, h⟩).id = run.id →
          db2.runs.get ⟨i, h2⟩ =
            { db.runs.get ⟨i, h⟩ with status := RunStatus.running, updatedAt := ts }) ∧
        ((db.runs.get ⟨i, h⟩).id ≠ run.id → db2.runs.get ⟨i, h2⟩ = db.runs.get ⟨i, h⟩)) ∧
      (∀ i (h : i < db.stories.length) (h2 : i < db2.stories.length),
        (db.stories.get ⟨i, h⟩).runId = run.id →
        (db.stories.get ⟨i, h⟩).status = StoryStatus.failed →
          db2.stories.get ⟨i, h2⟩ =
            { db.stories.get ⟨i, h⟩ with status := StoryStatus.pending, updatedAt := ts }) := by
  have hvp : verifyPairMatches L.loopConfig f.stepId = true := by
    simp [verifyPairMatches, hcfg, hve, hvs]
  obtain ⟨stories1, hres, h1len, h1get⟩ :
      ∃ stories1 : List StoryRow,
        resumeRun db target ts = ResumeOutcome.resumed
          { runs := updateRunRow db.runs run.id (fun r =>
              { r with status := RunStatus.running, updatedAt := ts })
            steps := updateStepRow (updateStepRow db.steps L.id (fun s =>
              { s with
                status := StepStatus.pending
                currentStoryId := none
                updatedAt := ts })) f.id (fun s =>
              { s with
                status := StepStatus.waiting
                currentStoryId := none
                updatedAt := ts })
            stories := stories1.map (fun st =>
              if st.runId = run.id ∧ st.status = StoryStatus.failed then
                { st with status := StoryStatus.pending, updatedAt := ts }
              else st) } ∧
        stories1.length = db.stories.length ∧
        (∀ i (h : i < db.stories.length) (h2 : i < stories1.length),
          stories1.get ⟨i, h2⟩ = db.stories.get ⟨i, h⟩ ∨
          stories1.get ⟨i, h2⟩ =
            { db.stories.get ⟨i, h⟩ with status := StoryStatus.pending, updatedAt := ts }) := by
    by_cases hft : f.type = StepType.loop
    · cases hst : firstFailedStory db.stories run.id with
      | none =>
        refine ⟨db.stories, ?_, rfl, fun i h h2 => Or.inl rfl⟩
        simp [resumeRun, hfind, hstatus, hfail, hft, hst, hL, hvp]
      | some st0 =>
        refine ⟨updateStoryRow db.stories st0.id (fun s =>
            { s with status := StoryStatus.pending, updatedAt := ts }),
          ?_, by simp [updateStoryRow], fun i h h2 => ?_⟩
        · simp [resumeRun, hfind, hstatus, hfail, hft, hst, hL, hvp]
        · simp only [List.get_eq_getElem, updateStoryRow, List.getElem_map]
          by_cases hid : (db.stories.get ⟨i, h⟩).id = st0.id
          · simp only [List.get_eq_getElem] at hid
            exact Or.inr (by rw [if_pos hid])
          · simp only [List.get_eq_getElem] at hid
            exact Or.inl (by rw [if_neg hid])
    · refine ⟨db.stories, ?_, rfl, fun i h h2 => Or.inl rfl⟩
      simp [resumeRun, hfind, hstatus, hfail, hft, hL, hvp]
  refine ⟨_, hres, by simp [updateStepRow], by simp [updateRunRow],
    by simp [h1len], ?_, ?_, ?_⟩
  · intro i h h2
    have hfL : f.id ≠ L.id := Ne.symm hne
    refine ⟨?_, ?_, ?_⟩
    · intro hid
      simp only [List.get_eq_getElem] at hid ⊢
      simp only [updateStepRow, List.getElem_map]
      rw [if_pos hid]
      rw [if_neg (show ¬ ({ db.steps[i] with
        status := StepStatus.pending
        currentStoryId := none
        updatedAt := ts } : StepRow).id = f.id from fun hc => hne (hid ▸ hc))]
    · intro hid
      simp only [List.get_eq_getElem] at hid ⊢
      simp only [updateStepRow, List.getElem_map]
      rw [if_neg (show ¬ (db.steps[i]).id = L.id from fun hc => hfL (hid ▸ hc))]
      rw [if_pos hid]
    · intro hidL hidf
      simp only [List.get_eq_getElem] at hidL hidf ⊢
      simp only [updateStepRow, List.getElem_map]
      rw [if_neg hidL, if_neg hidf]
  · intro i h h2
    constructor
    · intro hid
      simp only [List.get_eq_getElem] at hid ⊢
      simp only [updateRunRow, List.getElem_map]
      rw [if_pos hid]
    · intro hid
      simp only [List.get_eq_getElem] at hid ⊢
      simp only [updateRunRow, List.getElem_map]
      rw [if_neg hid]
  · intro i h h2 hrid hstf
    simp only [List.get_eq_getElem] at hrid hstf ⊢
    simp only [List.getElem_map]
    have h2s : i < stories1.length := by
      simp only [List.length_map] at h2
      exact h2
    rcases h1get i h h2s with hcase | hcase <;> simp only [List.get_eq_getElem] at hcase
    · rw [show stories1[i] = db.stories[i] from hcase]
      rw [if_pos ⟨hrid, hstf⟩]
    · rw [show stories1[i] = { db.stories[i] with
        status := StoryStatus.pending
        updatedAt := ts } from hcase]
      rw [if_neg (by
        rintro ⟨-, hc⟩
        simp at hc)]

theorem resume_verify_pair_reset_witness :
    ∃ db2, resumeRun cdbC4 "RC4" 9 = ResumeOutcome.resumed db2 ∧
      db2.steps.length = cdbC4.steps.length := by
  obtain ⟨db2, h1, h2, -⟩ :=
    resume_verify_pair_reset cdbC4 "RC4" 9 cRunC4 cStepVerifyC4 cStepLoopC4 cLoopCfgC4
      (by decide) rfl (by decide) (by decide) rfl rfl rfl (by decide)
  exact ⟨db2, h1, h2⟩

theorem buildStepRows_length (wf : WorkflowSpec) (runId : String) (now : Int) (idBase : Nat) :
    ∀ (specs : List StepSpec) (i0 : Nat),
      (buildStepRows wf runId now idBase i0 specs).length = specs.length := by
  intro specs
  induction specs with
  | nil => intro i0; rfl
  | cons x xs ih =>
    intro i0
    simp only [buildStepRows, List.length_cons, ih]

theorem buildStepRows_get (wf : WorkflowSpec) (runId : String) (now : Int) (idBase : Nat) :
    ∀ (specs : List StepSpec) (i0 j : Nat) (hj : j < specs.length)
      (hj2 : j < (buildStepRows wf runId now idBase i0 specs).length),
      (buildStepRows wf runId now idBase i0 specs).get ⟨j, hj2⟩ =
        makeStepRow wf runId now idBase (i0 + j) (specs.get ⟨j, hj⟩) := by
  intro specs
  induction specs with
  | nil => intro i0 j hj hj2; exact absurd hj (by simp)
  | cons x xs ih =>
    intro i0 j hj hj2
    cases j with
    | zero => rfl
    | succ k =>
      simp only [buildStepRows, List.get_eq_getElem, List.getElem_cons_succ]
      have hk : k < xs.length := by
        simpa using hj
      have hk2 : k < (buildStepRows wf runId now idBase (i0 + 1) xs).length := by
        rw [buildStepRows_length]
        exact hk
      have := ih (i0 + 1) k hk hk2
      simp only [List.get_eq_getElem] at this
      rw [this]
      congr 1
      omega

/-- C8: run creation inserts exactly one run row, with status running, and
one step row per workflow-spec step with step_index equal to the position
of the step in the spec; the step at index 0 is created pending and every
other step waiting. -/
theorem run_creation_initial_rows (db : Db) (wf : WorkflowSpec) (taskTitle : String)
    (notifyUrl : Option String) (runId : String) (now : Int) (idBase : Nat) :
    (insertRunAndSteps db wf taskTitle notifyUrl runId now idBase).runs.length
      = db.runs.length + 1 ∧
    (∃ r ∈ (insertRunAndSteps db wf taskTitle notifyUrl runId now idBase).runs,
      r.id = runId ∧ r.workflowId = wf.id ∧ r.task = taskTitle ∧
      r.status = RunStatus.running) ∧
    (insertRunAndSteps db wf taskTitle notifyUrl runId now idBase).steps.length
      = db.steps.length + wf.steps.length ∧
    (∀ i (h : i < wf.steps.length)
        (h2 : db.steps.length + i <
          (insertRunAndSteps db wf taskTitle notifyUrl runId now idBase).steps.length),
      (insertRunAndSteps db wf taskTitle notifyUrl runId now idBase).steps.get
          ⟨db.steps.length + i, h2⟩ =
        makeStepRow wf runId now idBase i (wf.steps.get ⟨i, h⟩) ∧
      ((insertRunAndSteps db wf taskTitle notifyUrl runId now idBase).steps.get
          ⟨db.steps.length + i, h2⟩).stepIndex = i ∧
      ((insertRunAndSteps db wf taskTitle notifyUrl runId now idBase).steps.get
          ⟨db.steps.length + i, h2⟩).stepId = (wf.steps.get ⟨i, h⟩).id ∧
      ((insertRunAndSteps db wf taskTitle notifyUrl runId now idBase).steps.get
          ⟨db.steps.length + i, h2⟩).runId = runId ∧
      ((insertRunAndSteps db wf taskTitle notifyUrl runId now idBase).steps.get
          ⟨db.steps.length + i, h2⟩).status =
        (if i = 0 then StepStatus.pending else StepStatus.waiting)) := by
  refine ⟨by simp [insertRunAndSteps], ?_, ?_, ?_⟩
  · exact ⟨insertedRunRow wf taskTitle notifyUrl runId now,
      by simp [insertRunAndSteps], rfl, rfl, rfl, rfl⟩
  · simp [insertRunAndSteps, buildStepRows_length]
  · intro i h h2
    have hrow : (insertRunAndSteps db wf taskTitle notifyUrl runId now idBase).steps.get
        ⟨db.steps.length + i, h2⟩ = makeStepRow wf runId now idBase i (wf.steps.get ⟨i, h⟩) := by
      simp only [insertRunAndSteps, List.get_eq_getElem]
      rw [List.getElem_append_right (by omega)]
      have hi : db.steps.length + i - db.steps.length = i := by omega
      have hib : i < (buildStepRows wf runId now idBase 0 wf.steps).length := by
        rw [buildStepRows_length]
        exact h
      have hget := buildStepRows_get wf runId now idBase wf.steps 0 i h hib
      simp only [List.get_eq_getElem, Nat.zero_add] at hget
      simp only [hi]
      exact hget
    refine ⟨hrow, by rw [hrow]; rfl, by rw [hrow]; rfl, by rw [hrow]; rfl, by rw [hrow]; rfl⟩

theorem run_creation_initial_rows_witness :
    ((insertRunAndSteps wdbEmpty wfC6 "task" none "newrun" 2 50).steps.get
        ⟨0, by decide⟩).status = StepStatus.pending ∧
    ((insertRunAndSteps wdbEmpty wfC6 "task" none "newrun" 2 50).steps.get
        ⟨1, by decide⟩).status = StepStatus.waiting ∧
    ((insertRunAndSteps wdbEmpty wfC6 "task" none "newrun" 2 50).steps.get
        ⟨1, by decide⟩).stepIndex = 1 := by
  obtain ⟨-, -, -, hrows⟩ := run_creation_initial_rows wdbEmpty wfC6 "task" none "newrun" 2 50
  have h0 := hrows 0 (by decide) (by decide)
  have h1 := hrows 1 (by decide) (by decide)
  exact ⟨h0.2.2.2.2, h1.2.2.2.2, h1.2.1⟩

/-- C6: with allow-concurrent unset and a non-stale running run of the
same workflow present, run creation throws and the store is returned
exactly as read (no run or step row inserted); with allow-concurrent set
the existence check is skipped and the new run is inserted with status
running. -/
theorem run_creation_concurrency_guard (db : Db) (wf : WorkflowSpec) (taskTitle : String)
    (notifyUrl : Option String) (nowMs thresholdMs : Int) (runId : String) (idBase : Nat)
    (cronOk : Bool) (a : RunRow)
    (hactive : activeRunQuery db.runs wf.id = some a)
    (hnotstale : isStaleActiveRun nowMs thresholdMs db a = false) :
    (∃ msg, runWorkflow db wf taskTitle notifyUrl false nowMs thresholdMs runId idBase cronOk
        = (db, Except.error msg)) ∧
    (∃ db2, runWorkflow db wf taskTitle notifyUrl true nowMs thresholdMs runId idBase true
        = (db2, Except.ok { id := runId
                            workflowId := wf.id
                            task := taskTitle
                            status := "running" }) ∧
      ∃ r ∈ db2.runs, r.id = runId ∧ r.status = RunStatus.running) := by
  constructor
  · refine ⟨"Workflow \"" ++ wf.id ++ "\" already has an active run (" ++ a.id.take 8 ++
      "). Wait for completion or use --allow-concurrent to queue another run.", ?_⟩
    simp [runWorkflow, hactive, hnotstale]
  · refine ⟨insertRunAndSteps db wf taskTitle notifyUrl runId nowMs idBase, ?_, ?_⟩
    · simp [runWorkflow]
    · exact ⟨insertedRunRow wf taskTitle notifyUrl runId nowMs,
        by simp [insertRunAndSteps], rfl, rfl⟩

theorem run_creation_concurrency_guard_witness :
    ∃ msg, runWorkflow wdbC1 wfC6 "task" none false 2 100 "newrun" 50 true
      = (wdbC1, Except.error msg) := by
  obtain ⟨h1, -⟩ := run_creation_concurrency_guard wdbC1 wfC6 "task" none 2 100 "newrun" 50
    true wRun1 (by decide) (by decide)
  exact h1

/-- Marking the freshly inserted run failed after the scheduler could not
be armed: the run row with the fresh id ends up failed, and no row with
that id is left in any other status. -/
theorem markFailed_props (runs : List RunRow) (runId : String) (nowMs : Int)
    (hmem : ∃ r ∈ runs, r.id = runId) :
    (∃ r ∈ runs.map (fun r =>
        if r.id = runId then { r with status := RunStatus.failed, updatedAt := nowMs } else r),
      r.id = runId ∧ r.status = RunStatus.failed) ∧
    (∀ r ∈ runs.map (fun r =>
        if r.id = runId then { r with status := RunStatus.failed, updatedAt := nowMs } else r),
      r.id = runId → r.status = RunStatus.failed) := by
  constructor
  · obtain ⟨r0, hr0, hid⟩ := hmem
    refine ⟨{ r0 with status := RunStatus.failed, updatedAt := nowMs }, ?_, hid, rfl⟩
    refine List.mem_map.mpr ⟨r0, hr0, ?_⟩
    show (if r0.id = runId then
        { r0 with status := RunStatus.failed, updatedAt := nowMs } else r0) =
      { r0 with status := RunStatus.failed, updatedAt := nowMs }
    rw [if_pos hid]
  · intro r hr hid
    rw [List.mem_map] at hr
    obtain ⟨x, hx, rfl⟩ := hr
    by_cases hxid : x.id = runId
    · rw [if_pos hxid]
    · rw [if_neg hxid] at hid ⊢
      exact absurd hid hxid

/-- C7: when the run and step rows were committed but arming the external
scheduler fails, runWorkflow marks the freshly created run failed and
raises an error; no run row with the fresh id is left in status running. -/
theorem cron_failure_marks_run_failed (db : Db) (wf : WorkflowSpec) (taskTitle : String)
    (notifyUrl : Option String) (allowConcurrent : Bool) (nowMs thresholdMs : Int)
    (runId : String) (idBase : Nat)
    (hreach : allowConcurrent = true ∨ activeRunQuery db.runs wf.id = none ∨
      ∃ a, activeRunQuery db.runs wf.id = some a ∧
        isStaleActiveRun nowMs thresholdMs db a = true) :
    ∃ db2, runWorkflow db wf taskTitle notifyUrl allowConcurrent nowMs thresholdMs runId
        idBase false = (db2, Except.error "Cannot start workflow run: cron setup failed.") ∧
      (∃ r ∈ db2.runs, r.id = runId ∧ r.status = RunStatus.failed) ∧
      (∀ r ∈ db2.runs, r.id = runId → r.status = RunStatus.failed) := by
  have hbase : ∀ dbIn : Db, ∃ r ∈ (insertRunAndSteps dbIn wf taskTitle notifyUrl runId
      nowMs idBase).runs, r.id = runId := by
    intro dbIn
    exact ⟨insertedRunRow wf taskTitle notifyUrl runId nowMs,
      by simp [insertRunAndSteps], rfl⟩
  cases allowConcurrent with
  | true =>
    refine ⟨cronFailStore (insertRunAndSteps db wf taskTitle notifyUrl runId nowMs idBase)
        runId nowMs, by simp [runWorkflow], ?_⟩
    exact markFailed_props _ runId nowMs (hbase db)
  | false =>
    rcases hreach with hac | hnone | ⟨a, ha, hstale⟩
    · cases hac
    · refine ⟨cronFailStore (insertRunAndSteps db wf taskTitle notifyUrl runId nowMs idBase)
          runId nowMs, by simp [runWorkflow, hnone], ?_⟩
      exact markFailed_props _ runId nowMs (hbase db)
    · refine ⟨cronFailStore (insertRunAndSteps
          (staleForceFail db a.id
            (staleReasonText (Int.fdiv (nowMs - lastActivityMs db a) 60000)) nowMs)
          wf taskTitle notifyUrl runId nowMs idBase) runId nowMs,
        by simp [runWorkflow, ha, hstale], ?_⟩
      exact markFailed_props _ runId nowMs
        (hbase (staleForceFail db a.id
          (staleReasonText (Int.fdiv (nowMs - lastActivityMs db a) 60000)) nowMs))

theorem cron_failure_marks_run_failed_witness :
    ∃ db2, runWorkflow wdbEmpty wfC6 "task" none true 2 100 "newrun" 50 false
        = (db2, Except.error "Cannot start workflow run: cron setup failed.") ∧
      (∃ r ∈ db2.runs, r.id = "newrun" ∧ r.status = RunStatus.failed) ∧
      (∀ r ∈ db2.runs, r.id = "newrun" → r.status = RunStatus.failed) :=
  cron_failure_marks_run_failed wdbEmpty wfC6 "task" none true 2 100 "newrun" 50 (Or.inl rfl)

end Antfarm
